import Mathlib

/-!
# Verification of the CVE tracker (`app.py`)

A shallow embedding of the pipeline and query logic of the CVE tracker:

* the feed parser `parse_feed`,
* the CSV record store `save_to_csv` / `load_csv`,
* the refresh metadata `save_last_updated` / `load_last_updated`,
* the refresh orchestration `run_tracker`,
* the query engine of the `index` route (filter, severity bucketing,
  sort, pagination).

Modelling conventions, used throughout:

* Python floats: every score the program compares comes from the CVSS
  `baseScore` feed field, a decimal number with one fractional digit, and
  is compared only against the integer bounds 2..10.  A float value `x`
  is therefore embedded exactly as the integer `10 * x` ("tenths"):
  `x <= n` holds for the float exactly when `10 * x <= 10 * n` holds for
  the integers.
* Python strings compare lexicographically by code point; this is
  embedded by the executable `charListLe` on the character list.
* File state: the CSV store is `Option (List Record)` (`none` = the file
  does not exist; the header row is abstracted into file existence,
  since it is written exactly when the file is created and always
  skipped when reading).  The timestamp file is `Option String`.
* An uncaught Python exception is an `Option`/`Except` failure.
-/

namespace CVEtracker

/-! ## Python string primitives (executable, structural) -/

/-- Python string comparison `a <= b`, lexicographic by code point,
on the character lists. -/
def charListLe : List Char → List Char → Bool
  | [], _ => true
  | _ :: _, [] => false
  | a :: as, b :: bs => if a < b then true else if b < a then false else charListLe as bs

/-- Python `a <= b` on strings (used by `list.sort` on the date column). -/
def pyStrLe (a b : String) : Bool := charListLe a.toList b.toList

/-- Python `str.lower` on one character (ASCII case mapping; the
descriptions in the feed and the query strings are ASCII text). -/
def pyLowerChar (c : Char) : Char :=
  if 'A' ≤ c ∧ c ≤ 'Z' then Char.ofNat (c.toNat + 32) else c

/-- Python `str.lower`. -/
def pyLower (s : String) : String := String.mk (s.toList.map pyLowerChar)

/-- Does `pre` start the list `l`? -/
def isPrefixL : List Char → List Char → Bool
  | [], _ => true
  | _ :: _, [] => false
  | a :: as, b :: bs => a == b && isPrefixL as bs

/-- Substring containment on character lists. -/
def isSubL (needle : List Char) : List Char → Bool
  | [] => needle.isEmpty
  | c :: rest => isPrefixL needle (c :: rest) || isSubL needle rest

/-- Python `needle in hay` on strings (substring containment). -/
def pyIn (needle hay : String) : Bool := isSubL needle.toList hay.toList

/-- Python `s[:n]` on a string: the first `n` characters. -/
def pyTakeStr (s : String) (n : Nat) : String := String.mk (s.toList.take n)

/-- Python whitespace test for `int()` argument stripping (ASCII whitespace;
`int()` also strips other unicode whitespace, which never occurs here). -/
def isPySpace (c : Char) : Bool :=
  c == ' ' || c == '\t' || c == '\n' || c == '\r' || c == '\x0b' || c == '\x0c'

/-- The numeric value of a nonempty all-digit character list, `none` otherwise. -/
def digitsVal : List Char → Option Nat
  | [] => none
  | cs => cs.foldlM (fun acc c => if c.isDigit then some (acc * 10 + (c.toNat - 48)) else none) 0

/-- Python `int(s)` on a decimal string: optional surrounding whitespace,
an optional sign, then one or more ASCII digits.  `none` models the
`ValueError` the call raises on any other string.  (Python additionally
accepts underscore digit grouping and non-ASCII digits; not modelled.) -/
def pyInt (s : String) : Option Int :=
  let cs := ((s.toList.dropWhile isPySpace).reverse.dropWhile isPySpace).reverse
  match cs with
  | '-' :: rest => (digitsVal rest).map (fun n => -(n : Int))
  | '+' :: rest => (digitsVal rest).map (fun n => (n : Int))
  | rest => (digitsVal rest).map (fun n => (n : Int))

/-- Normalisation of one bound of a Python slice `l[i:j]` for a list of
length `len`: negative indices count from the end, then both are clamped
into `[0, len]`. -/
def pySliceIdx (len : Nat) (i : Int) : Nat :=
  if i < 0 then (i + len).toNat else min i.toNat len

/-- Python list slicing `l[i:j]` with possibly negative bounds. -/
def pySlice {α : Type} (l : List α) (i j : Int) : List α :=
  let a := pySliceIdx l.length i
  let b := pySliceIdx l.length j
  (l.drop a).take (b - a)

/-! ## Data model -/

/-- The score column of a record: what the query engine can observe of it
is only the outcome of `float(score)`, so a score is embedded as that
outcome.  `num t` is a score string parsing to the float with value
`t / 10` (CVSS scores have one decimal digit, see the module docstring);
`na` is a string `float()` rejects — in particular the `"N/A"` sentinel
the parser stores when the feed has no `baseScore`. -/
inductive Score where
  | num (tenths : ℤ)
  | na
deriving DecidableEq, Repr

/-- One data row of the CSV store, as produced by `parse_feed`:
`[cve_id, description, published_date, score]`. -/
structure Record where
  id : String
  description : String
  publishedDate : String
  score : Score
deriving DecidableEq, Repr

/-- A JSON value, the result of `json.loads`.  Object fields keep their
order (Python dicts preserve insertion order); numbers are embedded in
tenths like all floats (the only numbers the program reads are CVSS
scores). -/
inductive Json where
  | null
  | bool (b : Bool)
  | num (tenths : ℤ)
  | str (s : String)
  | arr (items : List Json)
  | obj (fields : List (String × Json))

/-- Python `d[k]` on a JSON value: `none` models the `TypeError` (not a
dict) or `KeyError` (missing key) the indexing raises. -/
def Json.idx : Json → String → Option Json
  | .obj fields, k => fields.lookup k
  | _, _ => none

/-- Python `l[i]` on a JSON value: `none` models `TypeError`/`IndexError`. -/
def Json.idxNat : Json → Nat → Option Json
  | .arr items, i => items.get? i
  | _, _ => none

/-- Python `d.get(k, default)`: the outer `none` models the
`AttributeError` raised when the value is not a dict. -/
def Json.getD : Json → String → Json → Option Json
  | .obj fields, k, d => some ((fields.lookup k).getD d)
  | _, _, _ => none

/-- Python `d.get(k)` (no default): the outer `none` models the
`AttributeError` when the value is not a dict; `some none` is a missing
key (Python `None`). -/
def Json.getOpt : Json → String → Option (Option Json)
  | .obj fields, k => some (fields.lookup k)
  | _, _ => none

/-- The string content of a JSON value (the feed `ID`, description
`value` and `publishedDate` fields are strings; a non-string leaf would
merely be stringified by the CSV writer and is outside every claim). -/
def Json.asStr : Json → Option String
  | .str s => some s
  | _ => none

/-- Python truthiness of an optional JSON value (`if impact:`):
`None`, `False`, `0`, `""`, `[]` and `{}` are falsy. -/
def pyTruthy : Option Json → Bool
  | none => false
  | some .null => false
  | some (.bool b) => b
  | some (.num t) => !(t == 0)
  | some (.str s) => !(s == "")
  | some (.arr items) => !items.isEmpty
  | some (.obj fields) => !fields.isEmpty

/-! ## Feed parser (`parse_feed`) -/

/-- The raw bytes handed to `parse_feed`, abstracted by the outcome of
`json.loads` on them: `.error` is a byte string that is not valid JSON
(the `json.loads` call inside `parse_feed` raises). -/
abbrev RawJson := Except Unit Json

/-- Models `score = impact.get("cvssV3", {}).get("baseScore", "N/A") if impact
else "N/A"` together with
`impact = item.get("impact", {}).get("baseMetricV3")`.
The `"N/A"` default and any non-numeric `baseScore` give `Score.na`
(their string form does not `float`-parse; the `baseScore` of the feed is
always a number). -/
def extractScore (item : Json) : Option Score := do
  let impactDict ← item.getD "impact" (Json.obj [])
  let impact ← impactDict.getOpt "baseMetricV3"
  if pyTruthy impact then
    match impact with
    | some imp => do
      let cvss ← imp.getD "cvssV3" (Json.obj [])
      let base := (← cvss.getOpt "baseScore").getD (Json.str "N/A")
      match base with
      | .num t => pure (Score.num t)
      | _ => pure Score.na
    | none => pure Score.na
  else
    pure Score.na

/-- The loop body of `parse_feed`: extracts one record from one entry of
the `CVE_Items` list; `none` models the uncaught exception raised on a
missing nested field (which fails the whole batch). -/
def parseItem (item : Json) : Option Record := do
  let cve ← item.idx "cve"
  let meta ← cve.idx "CVE_data_meta"
  let cve_id ← (← meta.idx "ID").asStr
  let descObj ← cve.idx "description"
  let dd ← descObj.idx "description_data"
  let description ← (← (← dd.idxNat 0).idx "value").asStr
  let published_date ← (← item.idx "publishedDate").asStr
  let score ← extractScore item
  pure ⟨cve_id, description, published_date, score⟩

/-- Models `parse_feed(json_data)`.  `data.get("CVE_Items", [])` defaults a
missing key to the empty list; iterating a non-list value raises on the
first element access and is modelled as an error (the `""`/`{}` corner,
where the Python loop makes zero iterations, is outside every claim).
`.error` is any uncaught exception, which the caller `run_tracker`
reports as a failure. -/
def parse_feed (json_data : RawJson) : Except String (List Record) :=
  match json_data with
  | .error _ => .error "invalid JSON"
  | .ok data =>
    match data.getD "CVE_Items" (Json.arr []) with
    | none => .error "top-level value is not an object"
    | some items =>
      match items with
      | .arr itemList =>
        match itemList.mapM parseItem with
        | some recs => .ok recs
        | none => .error "missing field in some entry"
      | _ => .error "CVE_Items is not a list"

/-! ## Record store (`save_to_csv`, `load_csv`) -/

/-- The persisted CSV store: `none` = the file does not exist,
`some rows` = the data rows following the header. -/
abbrev Store := Option (List Record)

/-- Models `load_csv`: the full store in file order, `[]` when the file does not
exist; the header row is skipped (it is not part of `rows`). -/
def load_csv (store : Store) : List Record := store.getD []

/-- Models `save_to_csv(new_data, filename)`: loads the existing CVE ids, keeps
only the rows of `new_data` whose id is not already present, appends them
in their given order (writing the header first when creating the file:
the resulting store always exists), and returns the new store together
with `len(unique_data)`. -/
def save_to_csv (new_data : List Record) (store : Store) : Store × Nat :=
  let existing_ids : List String := (load_csv store).map Record.id
  let unique_data := new_data.filter (fun row => !(existing_ids.contains row.id))
  (some (load_csv store ++ unique_data), unique_data.length)

/-- The ids of the persisted rows, in file order. -/
def storeIds (store : Store) : List String := (load_csv store).map Record.id

/-! ## Refresh metadata -/

/-- Models `save_last_updated`: overwrites the timestamp file with the current
wall-clock time (passed in, as the embedding has no clock). -/
def save_last_updated (now : String) : Option String := some now

/-- Models `load_last_updated`: the stored timestamp, or `"Never"` when the
file has never been written. -/
def load_last_updated (meta : Option String) : String := meta.getD "Never"

/-! ## Refresh orchestration (`run_tracker`) -/

/-- The persistent state the tracker owns: the CSV store and the
timestamp file. -/
structure AppState where
  store : Store
  meta : Option String
deriving DecidableEq, Repr

/-- The environment of one refresh: the outcome of `download_feed` (`none` =
it raised: non-200 status, network, or gzip failure), fault switches for
the two file writes (`false` = the write raises; the CSV append is
modelled as atomic), and the current wall-clock time. -/
structure Env where
  feed : Option RawJson
  appendOk : Bool
  metaOk : Bool
  now : String

/-- Models `run_tracker()`: `download_feed` → `parse_feed` → `save_to_csv` →
`save_last_updated` inside one `try`.  Any raise is caught and turned
into the `"❌ Error: …"` message (`.error`); success returns the
`"✅ {new_count} new CVEs added."` message (`.ok new_count`).  The
function is total: no exception escapes to the caller. -/
def run_tracker (env : Env) (st : AppState) : AppState × Except String Nat :=
  match env.feed with
  | none => (st, .error "download failed")
  | some raw =>
    match parse_feed raw with
    | .error e => (st, .error e)
    | .ok results =>
      if env.appendOk then
        let saved := save_to_csv results st.store
        if env.metaOk then
          ({ store := saved.1, meta := save_last_updated env.now }, .ok saved.2)
        else
          ({ store := saved.1, meta := st.meta }, .error "writing timestamp file failed")
      else
        (st, .error "writing CSV file failed")

/-! ## Query engine (the `index` route) -/

/-- Models `get_score_bucket(score)` of the `index` route.  `float(score)`
failing takes the `except: return 9` branch; a parsed value runs the
`if`/`elif` chain (bounds in tenths, see the module docstring), and a
value above 10 falls off the end of the chain: Python returns `None`,
here `none`. -/
def get_score_bucket : Score → Option Nat
  | .na => some 9
  | .num s =>
    if s ≤ 20 then some 0
    else if s ≤ 30 then some 1
    else if s ≤ 40 then some 2
    else if s ≤ 50 then some 3
    else if s ≤ 60 then some 4
    else if s ≤ 70 then some 5
    else if s ≤ 80 then some 6
    else if s ≤ 90 then some 7
    else if s ≤ 100 then some 8
    else none

/-- The sort key of a record under `sort=score`, defaulted for the
undefined (`None`) case; the default is only ever reached behind the
guard in `sortCVEs`, where it is either dead (a `none` bucket fails the
sort) or irrelevant (a list of at most one record is never compared). -/
def bucketD (r : Record) : Nat := (get_score_bucket r.score).getD 0

/-- Ascending comparison by severity bucket. -/
def bucketLe (a b : Record) : Prop := bucketD a ≤ bucketD b

/-- Descending comparison by severity bucket: `reverse=True` sorts as if
by the reversed comparison while keeping equal keys in input order. -/
def bucketGe (a b : Record) : Prop := bucketD b ≤ bucketD a

/-- Ascending comparison by the raw published-date string (Python string
order: lexicographic by code point). -/
def dateLe (a b : Record) : Prop := pyStrLe a.publishedDate b.publishedDate = true

/-- Descending comparison by the raw published-date string. -/
def dateGe (a b : Record) : Prop := pyStrLe b.publishedDate a.publishedDate = true

instance : DecidableRel bucketLe := fun a b => inferInstanceAs (Decidable (bucketD a ≤ bucketD b))

instance : DecidableRel bucketGe := fun a b => inferInstanceAs (Decidable (bucketD b ≤ bucketD a))

instance : DecidableRel dateLe := fun a b =>
  inferInstanceAs (Decidable (pyStrLe a.publishedDate b.publishedDate = true))

instance : DecidableRel dateGe := fun a b =>
  inferInstanceAs (Decidable (pyStrLe b.publishedDate a.publishedDate = true))

/-- The sort stage of `index`: `all_cves.sort(key=..., reverse=...)`.
The Python `list.sort` is a stable sort and a stable sort by a total
preorder has exactly one possible output, so it is embedded as the
stable `insertionSort`; `reverse=True` keeps equal keys in input order,
i.e. it sorts stably by the reversed comparison.  Under `sort=score` the
keys are the `get_score_bucket` values: if some key is `None` and the
list has at least two elements, the first comparison touching it raises
`TypeError` (modelled as `none`); a list of at most one element is never
compared and sorts to itself. -/
def sortCVEs (sort_by sort_order : String) (l : List Record) : Option (List Record) :=
  if sort_by == "score" then
    if l.length ≤ 1 || l.all (fun r => (get_score_bucket r.score).isSome) then
      some (if sort_order == "desc" then l.insertionSort bucketGe else l.insertionSort bucketLe)
    else
      none
  else
    some (if sort_order == "desc" then l.insertionSort dateGe else l.insertionSort dateLe)

/-- The query parameters of `GET /` as they reach `request.args.get`:
`none` is an absent parameter (the `.get` default applies). -/
structure QueryParams where
  q : Option String
  year : Option String
  page : Option String
  sort : Option String
  order : Option String

/-- Everything `index` passes to `render_template`. -/
structure ViewModel where
  cves : List Record
  last_updated : String
  query : String
  page : Int
  total_pages : Nat
  sort_by : String
  sort_order : String
  year_filter : String
deriving DecidableEq, Repr

/-- The `index` route.  `none` models an uncaught exception: either
`int(page)` raising `ValueError` on a malformed page parameter, or the
`TypeError` from comparing a `None` score bucket during the sort.
Stages in source order: parse `page`, load, text filter, year filter,
sort, paginate. -/
def index (params : QueryParams) (store : Store) (meta : Option String) : Option ViewModel := do
  let query := pyLower (params.q.getD "")
  let year_filter := params.year.getD ""
  let page ← match params.page with
    | none => some (1 : Int)
    | some s => pyInt s
  let per_page : Int := 100
  let sort_by := params.sort.getD "date"
  let sort_order := params.order.getD "desc"
  let all_cves := load_csv store
  let last_updated := load_last_updated meta
  let all_cves := if query != "" then
    all_cves.filter (fun row => pyIn query (pyLower row.description)) else all_cves
  let all_cves := if year_filter != "" then
    all_cves.filter (fun row => pyTakeStr row.publishedDate 4 == year_filter) else all_cves
  let all_cves ← sortCVEs sort_by sort_order all_cves
  let total := all_cves.length
  let start := (page - 1) * per_page
  let paginated_cves := pySlice all_cves start (start + per_page)
  let total_pages := (total + 100 - 1) / 100
  pure ⟨paginated_cves, last_updated, query, page, total_pages, sort_by, sort_order, year_filter⟩

/-! ## Concrete sample data for the theorems below -/

/-- A record with score 5.0 (bucket 3). -/
def rec5 : Record := ⟨"CVE-2023-0005", "five", "2023-01-02T00:00Z", .num 50⟩

/-- A record whose score column does not parse (bucket 9). -/
def recNA : Record := ⟨"CVE-2023-0009", "unknown", "2023-01-01T00:00Z", .na⟩

/-- A record with score 11.0, above every bucket interval. -/
def recBig : Record := ⟨"CVE-2023-0011", "big", "2023-01-03T00:00Z", .num 110⟩

/-- Two records sharing one identifier inside a single batch. -/
def recDup1 : Record := ⟨"CVE-2023-0001", "first copy", "2023-01-01", .num 91⟩

/-- The second record with the identifier of `recDup1`. -/
def recDup2 : Record := ⟨"CVE-2023-0001", "second copy", "2024-05-05", .na⟩

/-- Scenario record A. -/
def recA : Record := ⟨"CVE-A", "a", "2021-01-01", .num 10⟩

/-- Scenario record B. -/
def recB : Record := ⟨"CVE-B", "b", "2021-01-02", .num 20⟩

/-- Scenario record C. -/
def recC : Record := ⟨"CVE-C", "c", "2021-01-03", .num 30⟩

/-- Scenario record D. -/
def recD : Record := ⟨"CVE-D", "d", "2021-01-04", .num 40⟩

/-- Three records for the stability witnesses: the first and the last share
their published date and their severity bucket. -/
def recTie1 : Record := ⟨"CVE-T1", "t1", "2022-02-02T00:00Z", .num 55⟩

/-- A record sorting strictly before the two tied ones. -/
def recTie2 : Record := ⟨"CVE-T2", "t2", "2021-01-01T00:00Z", .num 10⟩

/-- The record tied with `recTie1` on date and bucket. -/
def recTie3 : Record := ⟨"CVE-T3", "t3", "2022-02-02T00:00Z", .num 60⟩

/-- One well-formed feed entry, used to drive `run_tracker`. -/
def sampleItem : Json := Json.obj
  [("cve", Json.obj
      [("CVE_data_meta", Json.obj [("ID", Json.str "CVE-2024-0001")]),
       ("description", Json.obj
          [("description_data",
            Json.arr [Json.obj [("value", Json.str "Remote code execution")]])])]),
   ("publishedDate", Json.str "2024-01-01T00:00Z"),
   ("impact", Json.obj
      [("baseMetricV3", Json.obj [("cvssV3", Json.obj [("baseScore", Json.num 98)])])])]

/-- The record `parse_feed` extracts from `sampleItem`. -/
def sampleRecord : Record := ⟨"CVE-2024-0001", "Remote code execution", "2024-01-01T00:00Z", .num 98⟩

/-- A decoded feed document holding exactly `sampleItem`. -/
def sampleFeed : RawJson := .ok (Json.obj [("CVE_Items", Json.arr [sampleItem])])

/-- A refresh environment where everything succeeds up to and including the
CSV append, and then the timestamp write fails. -/
def envMetaFail : Env := ⟨some sampleFeed, true, false, "2024-02-02 00:00:00"⟩

/-! ## Order-theoretic facts about the embedded primitives -/

theorem charListLe_refl : ∀ cs, charListLe cs cs = true
  | [] => rfl
  | c :: cs => by simp [charListLe, charListLe_refl cs]

theorem charListLe_total : ∀ as bs, charListLe as bs = true ∨ charListLe bs as = true
  | [], _ => .inl rfl
  | _ :: _, [] => .inr rfl
  | a :: as, b :: bs => by
    simp only [charListLe]
    rcases lt_trichotomy a b with h | h | h
    · left
      simp [h]
    · subst h
      simp only [lt_irrefl, if_false]
      exact charListLe_total as bs
    · right
      simp [h]

theorem charListLe_trans : ∀ as bs cs, charListLe as bs = true → charListLe bs cs = true →
    charListLe as cs = true
  | [], _, _, _, _ => rfl
  | _ :: _, [], _, h1, _ => by simp [charListLe] at h1
  | _ :: _, _ :: _, [], _, h2 => by simp [charListLe] at h2
  | a :: as, b :: bs, c :: cs, h1, h2 => by
    simp only [charListLe] at h1 h2 ⊢
    rcases lt_trichotomy a b with hab | hab | hab
    · rcases lt_trichotomy b c with hbc | hbc | hbc
      · simp [lt_trans hab hbc]
      · subst hbc
        simp [hab]
      · rw [if_neg (lt_asymm hbc), if_pos hbc] at h2
        exact absurd h2 (by simp)
    · subst hab
      simp only [lt_irrefl, if_false] at h1
      rcases lt_trichotomy a c with hac | hac | hac
      · simp [hac]
      · subst hac
        simp only [lt_irrefl, if_false] at h2 ⊢
        exact charListLe_trans as bs cs h1 h2
      · rw [if_neg (lt_asymm hac), if_pos hac] at h2
        exact absurd h2 (by simp)
    · rw [if_neg (lt_asymm hab), if_pos hab] at h1
      exact absurd h1 (by simp)

instance : IsTotal Record dateLe :=
  ⟨fun a b => charListLe_total a.publishedDate.toList b.publishedDate.toList⟩

instance : IsTrans Record dateLe :=
  ⟨fun a b c h1 h2 =>
    charListLe_trans a.publishedDate.toList b.publishedDate.toList c.publishedDate.toList h1 h2⟩

instance : IsTotal Record dateGe :=
  ⟨fun a b => charListLe_total b.publishedDate.toList a.publishedDate.toList⟩

instance : IsTrans Record dateGe :=
  ⟨fun a b c h1 h2 =>
    charListLe_trans c.publishedDate.toList b.publishedDate.toList a.publishedDate.toList h2 h1⟩

instance : IsTotal Record bucketLe := ⟨fun a b => Nat.le_total (bucketD a) (bucketD b)⟩

instance : IsTrans Record bucketLe := ⟨fun _ _ _ h1 h2 => le_trans h1 h2⟩

instance : IsTotal Record bucketGe := ⟨fun a b => Nat.le_total (bucketD b) (bucketD a)⟩

instance : IsTrans Record bucketGe := ⟨fun _ _ _ h1 h2 => le_trans h2 h1⟩

/-- Stability of `insertionSort`: the subsequence of elements satisfying a
predicate on which the comparison cannot distinguish (any two of them are
related) is returned exactly in input order. -/
theorem filter_insertionSort {α : Type} (r : α → α → Prop) [DecidableRel r]
    (l : List α) (p : α → Bool)
    (hp : ∀ a b, p a = true → p b = true → r a b) :
    (l.insertionSort r).filter p = l.filter p := by
  have hpair : (l.filter p).Pairwise r := by
    induction l with
    | nil => exact .nil
    | cons x xs ih =>
      by_cases hx : p x = true
      · rw [List.filter_cons_of_pos hx]
        exact List.Pairwise.cons (fun y hy => hp x y hx (List.of_mem_filter hy)) ih
      · rwa [List.filter_cons_of_neg (by simpa using hx)]
  have hsub : List.Sublist (l.filter p) (l.insertionSort r) :=
    List.sublist_insertionSort hpair (List.filter_sublist l)
  have hself : (l.filter p).filter p = l.filter p :=
    List.filter_eq_self.mpr fun a ha => List.of_mem_filter ha
  have hsub2 : List.Sublist (l.filter p) ((l.insertionSort r).filter p) := by
    have := hsub.filter p
    rwa [hself] at this
  have hlen : ((l.insertionSort r).filter p).length = (l.filter p).length :=
    ((List.perm_insertionSort r l).filter p).length_eq
  exact (hsub2.eq_of_length hlen.symm).symm

/-- Every defined severity bucket is at most 9. -/
theorem get_score_bucket_le_nine {s : Score} {n : Nat} (h : get_score_bucket s = some n) :
    n ≤ 9 := by
  cases s with
  | na => simp [get_score_bucket] at h; omega
  | num t =>
    simp only [get_score_bucket] at h
    split_ifs at h <;> simp_all <;> omega

/-- The defaulted sort key is at most 9 as well. -/
theorem bucketD_le_nine (r : Record) : bucketD r ≤ 9 := by
  unfold bucketD
  cases h : get_score_bucket r.score with
  | none => simp
  | some n => simpa using get_score_bucket_le_nine h

/-- A numeric score has a bucket exactly when it is at most 10 (100 tenths). -/
theorem get_score_bucket_num_isSome {t : ℤ} :
    (get_score_bucket (.num t)).isSome = true ↔ t ≤ 100 := by
  simp only [get_score_bucket]
  split_ifs <;> simp <;> omega

/-- Python slicing past the end of the list yields the empty slice. -/
theorem pySlice_of_ge {α : Type} (l : List α) (i j : Int) (h : (l.length : Int) ≤ i) :
    pySlice l i j = [] := by
  unfold pySlice pySliceIdx
  have h0 : ¬ i < 0 := by omega
  rw [if_neg h0]
  have hmin : min i.toNat l.length = l.length := by omega
  simp [hmin, List.drop_length]

/-! ## C1 — missing top-level list key -/

/-- C1 counterexample: the claim says every valid JSON object lacking the
`"CVE_Items"` key makes `parse_feed` fail with a parse error; in fact
`data.get("CVE_Items", [])` defaults the missing key to the empty list,
so the empty object parses successfully to the empty record sequence. -/
theorem c1_counterexample :
    parse_feed (.ok (Json.obj [])) = .ok ([] : List Record) ∧
    ∀ e, parse_feed (.ok (Json.obj [])) ≠ .error e :=
  ⟨rfl, fun _ h => Except.noConfusion h⟩

/-- C1 (amended): a valid JSON object lacking the top-level `"CVE_Items"`
key parses successfully to the empty record sequence, exactly like one
whose `"CVE_Items"` maps to the empty list; a parse error still arises
for a byte string that is not valid JSON. -/
theorem c1_missing_key_yields_empty (fields : List (String × Json))
    (h : fields.lookup "CVE_Items" = none) :
    parse_feed (.ok (Json.obj fields)) = .ok [] ∧
    parse_feed (.ok (Json.obj [("CVE_Items", Json.arr [])])) = .ok [] ∧
    parse_feed (.error ()) = .error "invalid JSON" := by
  refine ⟨?_, rfl, rfl⟩
  simp only [parse_feed, Json.getD, h]
  rfl

/-- C1 witness: the amended theorem applied to a concrete object without
the `"CVE_Items"` key. -/
theorem c1_missing_key_yields_empty_witness :
    parse_feed (.ok (Json.obj [("other", Json.null)])) = .ok [] :=
  (c1_missing_key_yields_empty [("other", Json.null)] rfl).1

/-! ## C2 — severity bucket boundaries -/

/-- C2 counterexample: the claim maps score 8.9 to bucket 6; the code
takes the `s <= 9` branch, which returns 7. -/
theorem c2_counterexample :
    get_score_bucket (.num 89) = some 7 ∧ get_score_bucket (.num 89) ≠ some 6 := by
  decide

/-- C2 (amended): bucket boundaries are inclusive upper bounds — each
integer boundary score 2..10 falls in the interval it ends — and score
8.9, like 9.0, falls in the `<= 9` interval, bucket 7 (not 6); an
unparseable score such as `"N/A"` maps to bucket 9.  Scores are in
tenths: `.num 89` is the score string `"8.9"`. -/
theorem c2_bucket_boundaries :
    get_score_bucket (.num 20) = some 0 ∧
    get_score_bucket (.num 30) = some 1 ∧
    get_score_bucket (.num 40) = some 2 ∧
    get_score_bucket (.num 50) = some 3 ∧
    get_score_bucket (.num 60) = some 4 ∧
    get_score_bucket (.num 70) = some 5 ∧
    get_score_bucket (.num 80) = some 6 ∧
    get_score_bucket (.num 90) = some 7 ∧
    get_score_bucket (.num 100) = some 8 ∧
    get_score_bucket (.num 89) = some 7 ∧
    get_score_bucket (.num 91) = some 8 ∧
    get_score_bucket .na = some 9 := by
  decide

/-! ## C3 — persisted state after a failed refresh -/

/-- C3 counterexample: the claim says every failed refresh leaves the
persisted state exactly as before; but when the CSV append succeeds and
the subsequent timestamp write raises, `run_tracker` reports failure
while the store keeps its new rows. -/
theorem c3_counterexample :
    (run_tracker envMetaFail ⟨none, none⟩).1.store ≠ (⟨none, none⟩ : AppState).store ∧
    (run_tracker envMetaFail ⟨none, none⟩).2 = .error "writing timestamp file failed" :=
  ⟨by decide, rfl⟩

/-- C3 (amended): a refresh failing at or before the CSV append leaves
the persisted state unchanged, and every failure is returned as failure
text (`.error`, never re-raised: `run_tracker` is total); but when the
append succeeds and the timestamp write then fails, the store keeps the
newly appended rows while only the refresh metadata stays unchanged. -/
theorem c3_failed_refresh_state (env : Env) (st : AppState) :
    (env.feed = none → run_tracker env st = (st, .error "download failed")) ∧
    (∀ raw e, env.feed = some raw → parse_feed raw = .error e →
      run_tracker env st = (st, .error e)) ∧
    (env.appendOk = false → (run_tracker env st).1 = st) ∧
    (∀ raw results, env.feed = some raw → parse_feed raw = .ok results →
      env.appendOk = true → env.metaOk = false →
      run_tracker env st =
        (⟨(save_to_csv results st.store).1, st.meta⟩, .error "writing timestamp file failed")) := by
  refine ⟨fun hf => by simp [run_tracker, hf], ?_, ?_, ?_⟩
  · intro raw e hf he
    simp [run_tracker, hf, he]
  · intro ha
    unfold run_tracker
    cases hf : env.feed with
    | none => rfl
    | some raw =>
      cases hp : parse_feed raw with
      | error e => simp [hp]
      | ok results => simp [hp, ha]
  · intro raw results hf hp ha hm
    simp [run_tracker, hf, hp, ha, hm]

/-- C3 witness: the amended theorem applied to the concrete
metadata-failure environment, starting from the empty state. -/
theorem c3_failed_refresh_state_witness :
    run_tracker envMetaFail ⟨none, none⟩ =
      (⟨(save_to_csv [sampleRecord] (none : Store)).1, none⟩,
        .error "writing timestamp file failed") :=
  (c3_failed_refresh_state envMetaFail ⟨none, none⟩).2.2.2 sampleFeed [sampleRecord] rfl rfl rfl rfl

/-! ## C4 — identifier uniqueness of the store -/

/-- Appending one batch whose own ids are distinct preserves uniqueness
of the persisted ids: the appended rows are filtered against the ids
already in the store. -/
theorem save_to_csv_nodup_step (b : List Record) (st : Store)
    (hst : (storeIds st).Nodup) (hb : (b.map Record.id).Nodup) :
    (storeIds (save_to_csv b st).1).Nodup := by
  have hrw : storeIds (save_to_csv b st).1 =
      storeIds st ++
        (b.filter (fun row => !((storeIds st).contains row.id))).map Record.id := by
    simp [save_to_csv, storeIds, load_csv]
  rw [hrw, List.nodup_append]
  refine ⟨hst, List.Nodup.sublist (List.Sublist.map Record.id (List.filter_sublist b)) hb, ?_⟩
  intro x hx hx2
  obtain ⟨r, hr, rfl⟩ := List.mem_map.mp hx2
  have hmem := List.of_mem_filter hr
  simp only [Bool.not_eq_true'] at hmem
  simp at hmem
  exact hmem hx

/-- C4 counterexample: a single batch containing two records with the
same identifier is appended whole — the dedup filter only consults the
ids already persisted, not the ids earlier in the same batch — so the
store ends up with two rows sharing an id. -/
theorem c4_counterexample :
    (save_to_csv [recDup1, recDup2] none).1 = some [recDup1, recDup2] ∧
    ¬ (storeIds (save_to_csv [recDup1, recDup2] none).1).Nodup := by
  decide

/-- C4 (amended): after any sequence of `save_to_csv` calls starting from
a nonexistent store, no two rows of the store share an identifier,
provided every single input batch has internally distinct identifiers
(a batch with an internal duplicate is stored with the duplicate). -/
theorem c4_unique_ids_invariant (batches : List (List Record))
    (h : ∀ b ∈ batches, (b.map Record.id).Nodup) :
    (storeIds (batches.foldl (fun st b => (save_to_csv b st).1) none)).Nodup := by
  suffices key : ∀ (bs : List (List Record)) (st : Store), (storeIds st).Nodup →
      (∀ b ∈ bs, (b.map Record.id).Nodup) →
      (storeIds (bs.foldl (fun st b => (save_to_csv b st).1) st)).Nodup from
    key batches none (by simp [storeIds, load_csv]) h
  intro bs
  induction bs with
  | nil =>
    intro st hst _
    simpa using hst
  | cons b bs ih =>
    intro st hst hb
    simp only [List.foldl_cons]
    exact ih _ (save_to_csv_nodup_step b st hst (hb b (by simp)))
      (fun b2 hb2 => hb b2 (List.mem_cons_of_mem _ hb2))

/-- C4 witness: the amended invariant applied to two concrete batches
that share an identifier across (but not within) batches. -/
theorem c4_unique_ids_invariant_witness :
    (storeIds ([[recDup1], [recDup2]].foldl (fun st b => (save_to_csv b st).1) none)).Nodup :=
  c4_unique_ids_invariant [[recDup1], [recDup2]] (by decide)

/-! ## C5 — placement of unknown-score records when sorting by score -/

/-- C5 counterexample: the claim says descending order places bucket-9
(unknown) records last and ascending places them first; `reverse=True`
puts the largest key first, and 9 is the largest bucket, so descending
places the unknown record first and ascending places it last. -/
theorem c5_counterexample :
    sortCVEs "score" "desc" [rec5, recNA] = some [recNA, rec5] ∧
    sortCVEs "score" "desc" [rec5, recNA] ≠ some [rec5, recNA] ∧
    sortCVEs "score" "asc" [rec5, recNA] = some [rec5, recNA] ∧
    sortCVEs "score" "asc" [rec5, recNA] ≠ some [recNA, rec5] := by
  decide

/-- C5 (amended): records with an unparseable score are ordered purely by
their bucket value 9 under the same numeric comparison as all other
buckets, with no special case — the output is sorted by the bucket key in
the requested direction — so descending direction places bucket-9
records first and ascending places them last. -/
theorem c5_unknown_bucket_placement (l : List Record)
    (hl : l.all (fun r => (get_score_bucket r.score).isSome) = true) :
    ((sortCVEs "score" "desc" l).getD []).Pairwise (fun a b => bucketD b = 9 → bucketD a = 9) ∧
    ((sortCVEs "score" "asc" l).getD []).Pairwise (fun a b => bucketD a = 9 → bucketD b = 9) ∧
    ((sortCVEs "score" "desc" l).getD []).Pairwise bucketGe ∧
    ((sortCVEs "score" "asc" l).getD []).Pairwise bucketLe := by
  have hdesc : sortCVEs "score" "desc" l = some (l.insertionSort bucketGe) := by
    simp [sortCVEs, hl]
  have hasc : sortCVEs "score" "asc" l = some (l.insertionSort bucketLe) := by
    simp [sortCVEs, hl]
  rw [hdesc, hasc]
  simp only [Option.getD_some]
  have hsd : (l.insertionSort bucketGe).Pairwise bucketGe := List.sorted_insertionSort bucketGe l
  have hsa : (l.insertionSort bucketLe).Pairwise bucketLe := List.sorted_insertionSort bucketLe l
  refine ⟨hsd.imp ?_, hsa.imp ?_, hsd, hsa⟩
  · intro a b hab h9
    exact Nat.le_antisymm (bucketD_le_nine a) (h9 ▸ hab)
  · intro a b hab h9
    exact Nat.le_antisymm (bucketD_le_nine b) (h9 ▸ hab)

/-- C5 witness: the amended theorem at a concrete two-record list with
one unknown score (descending sortedness conjunct). -/
theorem c5_unknown_bucket_placement_witness :
    ((sortCVEs "score" "desc" [rec5, recNA]).getD []).Pairwise bucketGe :=
  (c5_unknown_bucket_placement [rec5, recNA] (by decide)).2.2.1

/-! ## C6 — page parameter handling -/

/-- Lowercasing the absent (empty) query parameter gives it back. -/
theorem pyLower_empty : pyLower "" = "" := rfl

/-- Evaluation of `index` with all parameters absent except a parseable
`page`: no filter applies, the default sort is by date descending, and
the result is the page slice of the sorted store. -/
theorem index_default_eval (rows : List Record) (meta : Option String) (ps : String)
    (page : Int) (hp : pyInt ps = some page) :
    index ⟨none, none, some ps, none, none⟩ (some rows) meta =
      some ⟨pySlice (List.insertionSort dateGe rows) ((page - 1) * 100) ((page - 1) * 100 + 100),
            load_last_updated meta, "", page, (rows.length + 100 - 1) / 100, "date", "desc", ""⟩ := by
  simp [index, hp, pyLower_empty, sortCVEs, load_csv, List.length_insertionSort]

/-- C6 counterexample: the claim says a malformed (non-integer) page
value yields an empty page slice rather than an error; in fact
`int(request.args.get("page", 1))` raises `ValueError` on `"abc"` and
the request fails with an uncaught exception. -/
theorem c6_counterexample :
    pyInt "abc" = none ∧
    index ⟨none, none, some "abc", none, none⟩ (some [rec5]) none = none := by
  decide

/-- C6 (amended): a malformed (non-integer) page value raises an uncaught
error instead of returning an empty slice; a numeric page whose slice
start lies at or past the end of the filtered records yields an empty
slice without error; and with 250 filtered records and page size 100
there are 3 total pages and requesting page 4 returns an empty slice. -/
theorem c6_page_handling (rows : List Record) (meta : Option String) (ps : String)
    (page : Int) (hp : pyInt ps = some page)
    (hrange : (rows.length : Int) ≤ (page - 1) * 100) :
    (index ⟨none, none, some ps, none, none⟩ (some rows) meta).map ViewModel.cves = some [] ∧
    pyInt "abc" = none ∧
    (∀ rows2 : List Record, index ⟨none, none, some "abc", none, none⟩ (some rows2) meta = none) ∧
    (index ⟨none, none, some "4", none, none⟩ (some (List.replicate 250 rec5)) meta).map
      (fun vm => (vm.cves, vm.total_pages)) = some ([], 3) := by
  refine ⟨?_, by decide, ?_, ?_⟩
  · rw [index_default_eval rows meta ps page hp]
    rw [pySlice_of_ge _ _ _ (by rwa [List.length_insertionSort])]
    rfl
  · intro rows2
    have h : pyInt "abc" = none := by decide
    simp [index, h]
  · rw [index_default_eval _ meta "4" 4 (by decide)]
    have hsort : List.insertionSort dateGe (List.replicate 250 rec5) = List.replicate 250 rec5 :=
      List.Sorted.insertionSort_eq (List.pairwise_replicate.mpr (.inr (charListLe_refl _)))
    rw [hsort]
    have hslice : pySlice (List.replicate 250 rec5) ((4 - 1) * 100) ((4 - 1) * 100 + 100) = [] := by
      apply pySlice_of_ge
      rw [List.length_replicate]
      norm_num
    rw [hslice, List.length_replicate]
    rfl

/-- C6 witness: the amended theorem at one record and page 4. -/
theorem c6_page_handling_witness :
    (index ⟨none, none, some "4", none, none⟩ (some [rec5]) none).map ViewModel.cves = some [] :=
  (c6_page_handling [rec5] none "4" 4 (by decide) (by norm_num)).1

/-! ## C7 / C8 — append semantics and idempotence -/

/-- Unfolding equation of `save_to_csv`. -/
theorem save_to_csv_eq (new_data : List Record) (store : Store) :
    save_to_csv new_data store =
      (some (load_csv store ++
          new_data.filter (fun row => !((load_csv store).map Record.id).contains row.id)),
       (new_data.filter (fun row => !((load_csv store).map Record.id).contains row.id)).length) :=
  rfl

/-- Boolean membership agrees with propositional membership. -/
theorem contains_eq_decide_mem (l : List String) (a : String) :
    l.contains a = decide (a ∈ l) :=
  List.elem_eq_mem a l

/-- C7: `save_to_csv` appends, after the existing rows, exactly the input
records whose identifier is not yet in the store, in input order, and
returns their count; the store exists afterwards (the header is written
exactly when it is created).  Concretely: appending `{A,B,C}` to the
empty store returns 3, then appending `{B,C,D}` returns 1 and leaves
the store `A,B,C,D`. -/
theorem c7_append_exactly_novel (st : Store) (new_data : List Record) :
    (save_to_csv new_data st).1 =
      some (load_csv st ++ new_data.filter (fun r => decide (r.id ∉ storeIds st))) ∧
    (save_to_csv new_data st).2 =
      (new_data.filter (fun r => decide (r.id ∉ storeIds st))).length ∧
    ((save_to_csv new_data st).1).isSome = true ∧
    save_to_csv [recA, recB, recC] none = (some [recA, recB, recC], 3) ∧
    save_to_csv [recB, recC, recD] (save_to_csv [recA, recB, recC] none).1 =
      (some [recA, recB, recC, recD], 1) := by
  have hcong : new_data.filter (fun row => !((load_csv st).map Record.id).contains row.id) =
      new_data.filter (fun r => decide (r.id ∉ storeIds st)) := by
    apply List.filter_congr
    intro x _
    rw [contains_eq_decide_mem, decide_not]
    rfl
  rw [save_to_csv_eq, hcong]
  exact ⟨rfl, rfl, rfl, by decide, by decide⟩

/-- C8: `save_to_csv` is idempotent — after one append, repeating the
same input appends nothing: the second call returns 0 and leaves the
store exactly as after the first call. -/
theorem c8_append_idempotent (st : Store) (new_data : List Record) :
    save_to_csv new_data (save_to_csv new_data st).1 = ((save_to_csv new_data st).1, 0) := by
  have hload : load_csv (save_to_csv new_data st).1 =
      load_csv st ++ new_data.filter
        (fun row => !((load_csv st).map Record.id).contains row.id) := rfl
  have hkey : new_data.filter
      (fun row => !((load_csv (save_to_csv new_data st).1).map Record.id).contains row.id) = [] := by
    rw [List.filter_eq_nil_iff]
    intro r hr
    have hc : ((load_csv (save_to_csv new_data st).1).map Record.id).contains r.id = true := by
      rw [hload, List.map_append, contains_eq_decide_mem, decide_eq_true_eq, List.mem_append]
      by_cases hm : r.id ∈ (load_csv st).map Record.id
      · exact .inl hm
      · right
        have hp : (!((load_csv st).map Record.id).contains r.id) = true := by
          rw [contains_eq_decide_mem]
          simp [hm]
        exact List.mem_map.mpr ⟨r, List.mem_filter.mpr ⟨hr, hp⟩, rfl⟩
    rw [hc]
    decide
  rw [save_to_csv_eq new_data (save_to_csv new_data st).1, hkey]
  simp only [List.append_nil, List.length_nil]
  rfl

/-! ## C9 — deterministic, stable sorting in both directions -/

/-- C9: sorting is stable and deterministic in both directions: records
with equal sort keys (equal severity bucket under `sort=score`, equal
published-date string under `sort=date`) appear in the output exactly in
input order, for ascending as well as descending direction; and the
descending output is sorted by the reversed key comparison (`dateGe`,
`bucketGe`) just as the ascending output is sorted by the direct one. -/
theorem c9_sort_stable_deterministic (l : List Record) (k : String) (kb : Option Nat)
    (hl : l.all (fun r => (get_score_bucket r.score).isSome) = true) :
    ((sortCVEs "date" "asc" l).getD []).filter (fun r => r.publishedDate == k) =
      l.filter (fun r => r.publishedDate == k) ∧
    ((sortCVEs "date" "desc" l).getD []).filter (fun r => r.publishedDate == k) =
      l.filter (fun r => r.publishedDate == k) ∧
    ((sortCVEs "score" "asc" l).getD []).filter (fun r => get_score_bucket r.score == kb) =
      l.filter (fun r => get_score_bucket r.score == kb) ∧
    ((sortCVEs "score" "desc" l).getD []).filter (fun r => get_score_bucket r.score == kb) =
      l.filter (fun r => get_score_bucket r.score == kb) ∧
    ((sortCVEs "date" "asc" l).getD []).Pairwise dateLe ∧
    ((sortCVEs "date" "desc" l).getD []).Pairwise dateGe ∧
    ((sortCVEs "score" "asc" l).getD []).Pairwise bucketLe ∧
    ((sortCVEs "score" "desc" l).getD []).Pairwise bucketGe := by
  have hda : sortCVEs "date" "asc" l = some (l.insertionSort dateLe) := by simp [sortCVEs]
  have hdd : sortCVEs "date" "desc" l = some (l.insertionSort dateGe) := by simp [sortCVEs]
  have hba : sortCVEs "score" "asc" l = some (l.insertionSort bucketLe) := by
    simp [sortCVEs, hl]
  have hbd : sortCVEs "score" "desc" l = some (l.insertionSort bucketGe) := by
    simp [sortCVEs, hl]
  rw [hda, hdd, hba, hbd]
  simp only [Option.getD_some]
  refine ⟨?_, ?_, ?_, ?_, List.sorted_insertionSort dateLe l, List.sorted_insertionSort dateGe l,
    List.sorted_insertionSort bucketLe l, List.sorted_insertionSort bucketGe l⟩
  · refine filter_insertionSort dateLe l _ fun a b ha hb => ?_
    have h1 : a.publishedDate = k := eq_of_beq ha
    have h2 : b.publishedDate = k := eq_of_beq hb
    show pyStrLe a.publishedDate b.publishedDate = true
    rw [h1, h2]
    exact charListLe_refl _
  · refine filter_insertionSort dateGe l _ fun a b ha hb => ?_
    have h1 : a.publishedDate = k := eq_of_beq ha
    have h2 : b.publishedDate = k := eq_of_beq hb
    show pyStrLe b.publishedDate a.publishedDate = true
    rw [h1, h2]
    exact charListLe_refl _
  · refine filter_insertionSort bucketLe l _ fun a b ha hb => ?_
    have h1 : get_score_bucket a.score = kb := eq_of_beq ha
    have h2 : get_score_bucket b.score = kb := eq_of_beq hb
    show bucketD a ≤ bucketD b
    unfold bucketD
    rw [h1, h2]
  · refine filter_insertionSort bucketGe l _ fun a b ha hb => ?_
    have h1 : get_score_bucket a.score = kb := eq_of_beq ha
    have h2 : get_score_bucket b.score = kb := eq_of_beq hb
    show bucketD b ≤ bucketD a
    unfold bucketD
    rw [h1, h2]

/-- C9 witness: stability at a concrete list whose first and third
records tie on both sort keys (date-ascending conjunct). -/
theorem c9_sort_stable_deterministic_witness :
    ((sortCVEs "date" "asc" [recTie1, recTie2, recTie3]).getD []).filter
        (fun r => r.publishedDate == "2022-02-02T00:00Z") =
      [recTie1, recTie2, recTie3].filter (fun r => r.publishedDate == "2022-02-02T00:00Z") :=
  (c9_sort_stable_deterministic [recTie1, recTie2, recTie3] "2022-02-02T00:00Z" (some 4)
    (by decide)).1

/-! ## C10 — scores above 10 have no bucket and break the score sort -/

/-- C10: a score parsing to a value strictly above 10 falls through every
branch of `get_score_bucket` and yields no bucket (`None`); the bucket is
defined exactly for unparseable scores and numeric scores at most 10; and
sorting by score over a list holding such a score next to a normally
bucketed one raises (the request fails). -/
theorem c10_bucket_above_ten (t : ℤ) (ht : 100 < t) :
    get_score_bucket (.num t) = none ∧
    (∀ s : Score, (get_score_bucket s).isSome = true ↔
      (s = .na ∨ ∃ u, s = .num u ∧ u ≤ 100)) ∧
    index ⟨none, none, none, some "score", none⟩ (some [recBig, rec5]) none = none := by
  refine ⟨?_, ?_, by decide⟩
  · show (if t ≤ 20 then some 0
      else if t ≤ 30 then some 1
      else if t ≤ 40 then some 2
      else if t ≤ 50 then some 3
      else if t ≤ 60 then some 4
      else if t ≤ 70 then some 5
      else if t ≤ 80 then some 6
      else if t ≤ 90 then some 7
      else if t ≤ 100 then some 8
      else none) = none
    split_ifs <;> first | rfl | omega
  · intro s
    cases s with
    | na => simp [get_score_bucket]
    | num u =>
      rw [get_score_bucket_num_isSome]
      constructor
      · intro hu
        exact .inr ⟨u, rfl, hu⟩
      · rintro (h | ⟨v, hv, hvle⟩)
        · exact Score.noConfusion h
        · injection hv with hv2
          rw [hv2]
          exact hvle

/-- C10 witness: the theorem at the concrete score 10.1. -/
theorem c10_bucket_above_ten_witness : get_score_bucket (.num 101) = none :=
  (c10_bucket_above_ten 101 (by decide)).1

end CVEtracker
